import Mathlib

/-!
Verification development for the DALI voice assistant repository.

Shallow embedding of the components the verified properties talk about:
the TTL cache and realtime information agent (src/agents/realtime.py),
the orchestrator's command dispatch and speak routine (src/main.py),
the cloud connector (src/online/cloud_connector.py), the network/cloud
availability checker (src/online/network_utils.py), the conversation
store (src/database/db_manager.py), and the configuration loader's
environment-placeholder substitution (src/utils/config.py and
src/config_loader.py).

Machine time is modelled as a rational number of seconds (Python's
`time.time()` float); Python truthiness on strings/options is modelled
explicitly (empty string and `None` are falsy).
-/

namespace DALI

/-! ### String helpers (Python `in`, `split(sep, 1)`, `.lower()`) -/

/-- Boolean list-prefix test, `isPrefixB n h = true` iff `n` is a prefix of `h`. -/
def isPrefixB : List Char → List Char → Bool
  | [], _ => true
  | _ :: _, [] => false
  | a :: as, b :: bs => a == b && isPrefixB as bs

/-- Boolean substring test on char lists: Python `needle in hay`. -/
def substrB (needle : List Char) : List Char → Bool
  | [] => isPrefixB needle []
  | c :: rest => isPrefixB needle (c :: rest) || substrB needle rest

/-- Python `needle in hay` on strings. -/
def strContainsB (hay needle : String) : Bool :=
  substrB needle.data hay.data

/-- Python `any(word in hay for word in kws)`. -/
def containsAny (hay : String) (kws : List String) : Bool :=
  kws.any (fun k => strContainsB hay k)

/-- The suffix after the first occurrence of `needle`: Python `hay.split(needle, 1)[1]`. -/
def afterFirst (needle : List Char) : List Char → Option (List Char)
  | [] => if isPrefixB needle [] then some [] else none
  | c :: rest =>
    if isPrefixB needle (c :: rest) then some ((c :: rest).drop needle.length)
    else afterFirst needle rest

/-- Python `s.lower()` (ASCII model, via `Char.toLower`). -/
def toLowerStr (s : String) : String :=
  String.mk (s.data.map Char.toLower)

/-- Python `s.strip()`: drop leading and trailing whitespace. -/
def pyStrip (s : String) : String :=
  String.mk (((s.data.dropWhile Char.isWhitespace).reverse.dropWhile Char.isWhitespace).reverse)

/-- Python `s.startswith(pre)`. -/
def startsWithB (s pre : String) : Bool :=
  isPrefixB pre.data s.data

/-! ### TTL cache (src/agents/realtime.py lines 15-29)

`get` replays the Python truthiness check `if ts and (time.time() - ts) < self.ttl`:
a timestamp of exactly `0` is falsy and therefore treated as a miss. -/

structure TTLCache where
  ttl : ℚ
  store : String → Option String
  timestamps : String → Option ℚ

/-- `TTLCache.__init__`, default `ttl_seconds=60`. -/
def TTLCache.init (ttl_seconds : ℚ := 60) : TTLCache :=
  ⟨ttl_seconds, fun _ => none, fun _ => none⟩

/-- `TTLCache.get`, evaluated at ambient wall-clock time `now`. -/
def TTLCache.get (c : TTLCache) (now : ℚ) (key : String) : Option String :=
  match c.timestamps key with
  | none => none
  | some ts => if ts ≠ 0 ∧ now - ts < c.ttl then c.store key else none

/-- `TTLCache.set`, evaluated at ambient wall-clock time `now`. -/
def TTLCache.set (c : TTLCache) (now : ℚ) (key : String) (value : String) : TTLCache :=
  { c with
    store := fun k => if k = key then some value else c.store k,
    timestamps := fun k => if k = key then some now else c.timestamps k }

/-- The cache built by `RealtimeAgent.__init__`: `TTLCache(ttl_seconds=120)`. -/
def RealtimeAgent.initCache : TTLCache := TTLCache.init 120

/-! ### Realtime information agent (src/agents/realtime.py lines 36-96) -/

/-- Outcome of one `requests.get` attempt inside `get_weather._fetch`:
either a response with a status code and body text, or a raised exception. -/
inductive FetchAttempt where
  | ok (status : Nat) (body : String)
  | exn
deriving DecidableEq

/-- Ambient environment of one `get_weather` call: internet probe result,
wall-clock time, and the outcomes of the (at most two) fetch attempts. -/
structure WeatherEnv where
  hasInternet : Bool
  now : ℚ
  attempt1 : FetchAttempt
  attempt2 : FetchAttempt

/-- What a completed `_fetch` loop produced: final reply string, the number of
HTTP attempts consumed, and the `asyncio.sleep` durations performed. -/
structure LoopOut where
  reply : String
  consumed : Nat
  sleeps : List ℚ
deriving DecidableEq

/-- Fixed message for a weather fetch that failed twice. -/
def weatherFailMsg : String := "Unable to fetch weather right now."

/-- Fixed message when the internet probe fails for weather. -/
def weatherNetMsg : String := "Internet connection is required for weather information."

/-- The `while tries < 2` loop of `get_weather._fetch`, over the list of remaining
attempt outcomes: a 200 response returns the formatted weather, a non-200
response retries without sleeping, an exception sleeps 0.5s then retries. -/
def weatherTryLoop : List FetchAttempt → LoopOut
  | [] => ⟨weatherFailMsg, 0, []⟩
  | .ok status body :: rest =>
    if status == 200 then ⟨"Current weather: " ++ pyStrip body, 1, []⟩
    else
      let o := weatherTryLoop rest
      ⟨o.reply, o.consumed + 1, o.sleeps⟩
  | .exn :: rest =>
    let o := weatherTryLoop rest
    ⟨o.reply, o.consumed + 1, (1 / 2 : ℚ) :: o.sleeps⟩

/-- Python `location or 'default'` (empty string is falsy). -/
def locationOrDefault : Option String → String
  | none => "default"
  | some l => if l = "" then "default" else l

/-- Python truthiness of an optional string (`None` and `""` are falsy). -/
def truthyStr : Option String → Bool
  | none => false
  | some s => !(s == "")

/-- Observable result of one agent call: the reply, the cache afterwards, and
whether the cache was read, whether `_fetch` ran, how many HTTP attempts were
made and which sleeps happened. -/
structure AgentResult where
  reply : String
  cache : TTLCache
  cacheRead : Bool
  fetchRan : Bool
  httpAttempts : Nat
  sleeps : List ℚ

/-- `RealtimeAgent.get_weather` (src/agents/realtime.py lines 36-60). -/
def RealtimeAgent.get_weather (cache : TTLCache) (env : WeatherEnv)
    (location : Option String) : AgentResult :=
  if !env.hasInternet then ⟨weatherNetMsg, cache, false, false, 0, []⟩
  else
    let key := "weather:" ++ locationOrDefault location
    let o := weatherTryLoop [env.attempt1, env.attempt2]
    let missRes : AgentResult :=
      ⟨o.reply, cache.set env.now key o.reply, true, true, o.consumed, o.sleeps⟩
    match cache.get env.now key with
    | some c => if c = "" then missRes else ⟨c, cache, true, false, 0, []⟩
    | none => missRes

/-- Outcome of one `requests.get` attempt inside `get_news._fetch`: a response
with status code and the decoded `articles` list (each article's optional
`title`), or a raised exception. -/
inductive NewsAttempt where
  | ok (status : Nat) (articles : List (Option String))
  | exn

/-- Ambient environment of one `get_news` call. -/
structure NewsEnv where
  hasInternet : Bool
  now : ℚ
  attempt1 : NewsAttempt
  attempt2 : NewsAttempt

/-- Fixed message when no news API key is supplied. -/
def newsNotConfMsg : String := "News API key not configured. Set NEWSAPI_KEY to enable headlines."

/-- Fixed message for a news fetch that failed twice. -/
def newsFailMsg : String := "News service unavailable."

/-- Fixed message when the internet probe fails for news. -/
def newsNetMsg : String := "Internet connection is required for news updates."

/-- The `while tries < 2` loop of `get_news._fetch` (after the API-key check). -/
def newsTryLoop : List NewsAttempt → LoopOut
  | [] => ⟨newsFailMsg, 0, []⟩
  | .ok status articles :: rest =>
    if status == 200 then
      let arts := articles.take 3
      if arts.isEmpty then ⟨"No headlines available.", 1, []⟩
      else
        let titles := String.intercalate ". "
          (arts.filterMap (fun t =>
            match t with
            | some s => if s = "" then none else some s
            | none => none))
        ⟨"Top headlines: " ++ titles ++ ".", 1, []⟩
    else
      let o := newsTryLoop rest
      ⟨o.reply, o.consumed + 1, o.sleeps⟩
  | .exn :: rest =>
    let o := newsTryLoop rest
    ⟨o.reply, o.consumed + 1, (1 / 2 : ℚ) :: o.sleeps⟩

/-- `RealtimeAgent.get_news` (src/agents/realtime.py lines 62-90): note the
cache lookup under `"news:<country>"` happens before the API-key check,
which lives inside `_fetch`. -/
def RealtimeAgent.get_news (cache : TTLCache) (env : NewsEnv)
    (country : String) (api_key : Option String) : AgentResult :=
  if !env.hasInternet then ⟨newsNetMsg, cache, false, false, 0, []⟩
  else
    let key := "news:" ++ country
    let o : LoopOut :=
      if truthyStr api_key then newsTryLoop [env.attempt1, env.attempt2]
      else ⟨newsNotConfMsg, 0, []⟩
    let missRes : AgentResult :=
      ⟨o.reply, cache.set env.now key o.reply, true, true, o.consumed, o.sleeps⟩
    match cache.get env.now key with
    | some c => if c = "" then missRes else ⟨c, cache, true, false, 0, []⟩
    | none => missRes

/-! ### Network / cloud availability checker (src/online/network_utils.py lines 33-74) -/

/-- One decoded chat-completion `choices` entry (payload irrelevant to the probe). -/
inductive ChoiceEntry where
  | entry
deriving DecidableEq

/-- Outcome of the probe `requests.post` in `is_cloud_available`: a parsed
response, or one of the three caught exception families. -/
inductive ProbeOutcome where
  | ok (status : Nat) (choices : List ChoiceEntry)
  | timeout
  | connError
  | otherExn
deriving DecidableEq

/-- Result of `is_cloud_available` plus whether the network request was issued. -/
structure ProbeResult where
  result : Bool
  requestMade : Bool
deriving DecidableEq

/-- `is_cloud_available` (src/online/network_utils.py): `sarvamKey` is the
already-coalesced `os.environ.get("SARVAM_API_KEY") or config key` value
(`none` models Python `None`). -/
def is_cloud_available (sarvamKey : Option String) (probe : ProbeOutcome) : ProbeResult :=
  match sarvamKey with
  | none => ⟨false, false⟩
  | some k =>
    if k = "" then ⟨false, false⟩
    else if startsWithB k "$\x7b" then ⟨false, false⟩
    else
      match probe with
      | .ok status choices => ⟨status == 200 && !choices.isEmpty, true⟩
      | _ => ⟨false, true⟩

/-! ### Cloud connector (src/online/cloud_connector.py lines 32-123) -/

/-- The `content` field of a choice's message: a JSON string or a non-string value. -/
inductive ContentJson where
  | str (s : String)
  | nonstr
deriving DecidableEq

/-- A choice's `message` object. -/
structure MessageJson where
  content : Option ContentJson
deriving DecidableEq

/-- One entry of the chat response's `choices` list. -/
structure ChoiceJson where
  message : Option MessageJson
deriving DecidableEq

/-- The decoded chat-completion response body. -/
structure ChatJson where
  choices : List ChoiceJson
deriving DecidableEq

/-- Outcome of the `requests.post` in `get_cloud_response`:
`httpError` is an `HTTPError` from `raise_for_status` carrying
`getattr(e.response, "status_code", None)`. -/
inductive ReqOutcome where
  | ok (data : ChatJson)
  | httpError (code : Option Nat)
  | timeout
  | connError
  | otherExn
deriving DecidableEq

/-- The distinct exceptions `get_cloud_response` raises (each corresponds to a
distinct message string in the source). -/
inductive CloudErr where
  | notConfigured
  | invalidKey
  | rateLimited
  | httpOther
  | timedOut
  | unreachable
  | requestFailed
  | badFormat
deriving DecidableEq

/-- `_ensure_api_key` succeeds iff the key is present, non-empty, and not an
unresolved `$\x7b...\x7d` placeholder. -/
def ensure_api_key_ok (apiKey : Option String) : Bool :=
  match apiKey with
  | none => false
  | some k => !(k == "") && !(startsWithB k "$\x7b")

/-- `get_cloud_response` (src/online/cloud_connector.py lines 74-123). -/
def get_cloud_response (apiKey : Option String) (outcome : ReqOutcome) :
    Except CloudErr String :=
  if !ensure_api_key_ok apiKey then .error .notConfigured
  else
    match outcome with
    | .httpError code =>
      if code = some 401 then .error .invalidKey
      else if code = some 429 then .error .rateLimited
      else .error .httpOther
    | .timeout => .error .timedOut
    | .connError => .error .unreachable
    | .otherExn => .error .requestFailed
    | .ok data =>
      match data.choices with
      | [] => .error .badFormat
      | c :: _ =>
        match (c.message.getD ⟨none⟩).content with
        | some (.str s) => .ok (pyStrip s)
        | some .nonstr => .ok ""
        | none => .ok (pyStrip "")

/-! ### Conversation store (src/database/db_manager.py lines 44-100)

The `conversations` table with its SQLite `INTEGER PRIMARY KEY AUTOINCREMENT`
column is modelled as a list of rows plus the next id the backend will assign
(ids are assigned in increasing order and never reused). -/

/-- One row of the `conversations` table. -/
structure ConvRow where
  id : Nat
  timestamp : String
  mode : String
  language : Option String
  user_text : String
  response_text : String
  metadata : String
deriving DecidableEq

/-- The `conversations` table state. -/
structure ConvDB where
  nextId : Nat
  rows : List ConvRow

/-- Freshly created table (`_ensure_schema` on an empty database). -/
def ConvDB.empty : ConvDB := ⟨1, []⟩

/-- `DBManager.insert_conversation`: inserts a row, commits, returns
`cur.lastrowid`; `now` is the `CURRENT_TIMESTAMP` the backend assigns. -/
def ConvDB.insert_conversation (db : ConvDB) (now : String)
    (user_text response_text mode : String) (language : Option String)
    (metadata : String) : Nat × ConvDB :=
  (db.nextId,
   ⟨db.nextId + 1,
    db.rows ++ [⟨db.nextId, now, mode, language, user_text, response_text, metadata⟩]⟩)

/-- `DBManager.get_conversation`: `SELECT ... WHERE id = ?` then `fetchone`. -/
def ConvDB.get_conversation (db : ConvDB) (conv_id : Nat) : Option ConvRow :=
  db.rows.find? (fun r => r.id == conv_id)

/-- `DBManager.delete_conversation`: `DELETE FROM conversations WHERE id = ?`. -/
def ConvDB.delete_conversation (db : ConvDB) (conv_id : Nat) : ConvDB :=
  ⟨db.nextId, db.rows.filter (fun r => !(r.id == conv_id))⟩

/-- Well-formedness of the table state: assigned ids are below the next id,
and ids start at 1 as SQLite's AUTOINCREMENT does. -/
def ConvDB.wf (db : ConvDB) : Prop :=
  1 ≤ db.nextId ∧ ∀ r ∈ db.rows, r.id < db.nextId

/-! ### Configuration loader (src/utils/config.py lines 21-36, src/config_loader.py lines 13-38)

`re.sub(r"\$\x7b([^\x7d]+)\x7d", repl, value)` scans left to right; a match is
`$`, `\x7b`, a maximal non-empty run of non-`\x7d` characters, then `\x7d`.
A matched name set in the environment is replaced by the variable's value
(replacements are not rescanned); an unset one is left verbatim. -/

/-- JSON-shaped configuration values. -/
inductive ConfigVal where
  | str (s : String)
  | num (n : Int)
  | boolean (b : Bool)
  | null
  | arr (xs : List ConfigVal)
  | obj (fields : List (String × ConfigVal))

/-- Read characters up to the first `\x7d`; returns the run and the suffix
after the `\x7d` (with a length bound used for termination), or `none` when
no `\x7d` exists. -/
def scanName : (l : List Char) → Option (List Char × { r : List Char // r.length < l.length })
  | [] => none
  | c :: rest =>
    if c = '\x7d' then some ([], ⟨rest, by simp⟩)
    else
      match scanName rest with
      | none => none
      | some (n, ⟨r, hr⟩) => some (c :: n, ⟨r, by simpa using Nat.lt_succ_of_lt hr⟩)

/-- The character-level behaviour of the `re.sub` call in
`substitute_env_variables`, with `envv` as `os.getenv`. -/
def substRe (envv : String → Option String) : List Char → List Char
  | [] => []
  | [c] => [c]
  | c :: d :: l =>
    if c = '$' ∧ d = '\x7b' then
      match scanName l with
      | none => c :: d :: l
      | some (name, ⟨r2, hr2⟩) =>
        if name = [] then c :: d :: substRe envv l
        else
          match envv (String.mk name) with
          | some v => v.data ++ substRe envv r2
          | none => c :: d :: (name ++ '\x7d' :: substRe envv r2)
    else c :: substRe envv (d :: l)
termination_by l => l.length
decreasing_by all_goals (simp_all; try omega)

/-- `substitute_env_variables`: substitution on string values, identity elsewhere. -/
def substitute_env_variables (envv : String → Option String) : ConfigVal → ConfigVal
  | .str s => .str (String.mk (substRe envv s.data))
  | v => v

mutual

/-- `process_config` / `_process_config`: recurse through mappings and
sequences, substituting at string leaves. -/
def process_config (envv : String → Option String) : ConfigVal → ConfigVal
  | .str s => substitute_env_variables envv (.str s)
  | .num n => substitute_env_variables envv (.num n)
  | .boolean b => substitute_env_variables envv (.boolean b)
  | .null => substitute_env_variables envv .null
  | .arr xs => .arr (processConfigList envv xs)
  | .obj fields => .obj (processConfigFields envv fields)

/-- Elementwise `process_config` over a JSON sequence. -/
def processConfigList (envv : String → Option String) : List ConfigVal → List ConfigVal
  | [] => []
  | x :: xs => process_config envv x :: processConfigList envv xs

/-- Valuewise `process_config` over a JSON mapping's fields. -/
def processConfigFields (envv : String → Option String) :
    List (String × ConfigVal) → List (String × ConfigVal)
  | [] => []
  | (k, v) :: fs => (k, process_config envv v) :: processConfigFields envv fs

end

/-- `true` iff the char list contains an adjacent `$`-`\x7b` pair, i.e. the
start of a possible placeholder match. -/
def hasDollarBrace : List Char → Bool
  | [] => false
  | [_] => false
  | c :: d :: l => (c == '$' && d == '\x7b') || hasDollarBrace (d :: l)

/-! ### Orchestrator: speak (src/main.py lines 229-288) -/

/-- The orchestrator state fields `speak` reads. -/
structure SpeakState where
  mode : String
  cloud_available : Bool
  offline_fallback_active : Bool
  dbInit : Bool
  paused : Bool
deriving DecidableEq

/-- Ambient outcomes of one `speak` call: whether `synthesize_speech` (and the
playback setup inside the same `try`) succeeds, and whether the offline TTS
module imported (`TTS_AVAILABLE`; the constructor exits when it is false). -/
structure SpeakEnv where
  synthOk : Bool
  ttsAvailable : Bool
deriving DecidableEq

/-- The guard `self.mode in ("online", "auto") and self.cloud_available and
not self.offline_fallback_active` shared by `speak` and `process_command`. -/
def speakGate (st : SpeakState) : Bool :=
  (st.mode == "online" || st.mode == "auto") && st.cloud_available &&
    !st.offline_fallback_active

/-- Observable trace of one `speak` call. -/
structure SpeakTrace where
  printed : Bool
  onlineAttempted : Bool
  onlineSucceeded : Bool
  localTtsRan : Bool
  dbInsertAttempted : Bool
  insertMode : Option String
  insertPausedMeta : Option Bool
deriving DecidableEq

/-- The tail of `speak` after the remote-synthesis `try` (src/main.py lines
270-288): local TTS then the best-effort conversation insert. -/
def speakOfflinePart (st : SpeakState) (env : SpeakEnv) (attempted : Bool) : SpeakTrace :=
  if !env.ttsAvailable then ⟨true, attempted, false, false, false, none, none⟩
  else
    ⟨true, attempted, false, true, st.dbInit,
     if st.dbInit then
       some (if st.cloud_available && !st.offline_fallback_active then "online" else "offline")
     else none,
     if st.dbInit then some st.paused else none⟩

/-- `VoiceAssistant.speak` (src/main.py lines 229-288): note the `return` at
line 266 on remote-synthesis success, before the conversation insert. -/
def speak (st : SpeakState) (env : SpeakEnv) (text : String) : SpeakTrace :=
  if text = "" then ⟨false, false, false, false, false, none, none⟩
  else
    if speakGate st then
      if env.synthOk then ⟨true, true, true, false, false, none, none⟩
      else speakOfflinePart st env true
    else speakOfflinePart st env false

/-! ### Orchestrator: command dispatch (src/main.py lines 490-597) -/

/-- Orchestrator state fields `process_command` reads or writes. -/
structure AsstState where
  mode : String
  cloud_available : Bool
  offline_fallback_active : Bool
  paused : Bool
  running : Bool
  cache : TTLCache

/-- Outcome of the `get_cloud_response` call inside `process_command`. -/
inductive CloudOutcome where
  | ok (reply : String)
  | exn
deriving DecidableEq

/-- Ambient environment of one `process_command` call: agent environments,
the coalesced news API key, the cloud call outcome, the formatted clock
strings, the launcher reply, and the offline intent handler's behaviour. -/
structure CmdEnv where
  weather : WeatherEnv
  news : NewsEnv
  newsApiKey : Option String
  cloud : CloudOutcome
  currentTime : String
  currentDate : String
  launcherReply : String
  rasaAvailable : Bool
  rasaReply : Option String
  name : String
  offlineTime : String
  offlineDate : String

/-- Which branch of `process_command` produced the reply. -/
inductive Handler where
  | noInput
  | exitH
  | pauseH
  | timeH
  | dateH
  | weatherH
  | newsH
  | launcherH
  | cloudH
  | cloudFallbackH
  | offlineH
deriving DecidableEq

/-- Observable result of one `process_command` call. -/
structure CmdResult where
  state : AsstState
  spoken : List String
  handler : Handler
  cloudCalled : Bool

/-- The cloud gate of `process_command` (same condition as `speak`). -/
def cloudGate (s : AsstState) : Bool :=
  (s.mode == "online" || s.mode == "auto") && s.cloud_available &&
    !s.offline_fallback_active

/-- Reply truncation to the first 3 sentences, splitting on `". "`
(src/main.py lines 574-576). -/
def truncate3 (response : String) : String :=
  let sentences := response.splitOn ". "
  if sentences.length > 3 then String.intercalate ". " (sentences.take 3) ++ "."
  else response

/-- `VoiceAssistant._offline_response` (src/main.py lines 599-626). -/
def offline_response (name t d : String) (query : String) : String :=
  let ql := toLowerStr query
  if containsAny ql ["hello", "hi", "hey", "namaste"] then
    "Hello! I\x27m " ++ name ++ ". Cloud service is unavailable, but I can still help with basic queries."
  else if strContainsB ql "time" then "The time is " ++ t
  else if strContainsB ql "date" || strContainsB ql "today" then "Today is " ++ d
  else if strContainsB ql "who are you" || strContainsB ql "your name" then
    "I am " ++ name ++ ", your voice assistant. I\x27m currently in offline mode."
  else if strContainsB ql "what can you" || strContainsB ql "help" then
    "In offline mode, I can tell you the time and date. For more features, enable the cloud connection."
  else
    "I\x27m sorry, I need cloud connection for that. Please set SARVAM_API_KEY if you want online features."

/-- The offline tail of `process_command` (src/main.py lines 586-597): Rasa if
importable and its reply truthy, else `_offline_response`. -/
def offlineReplyOf (env : CmdEnv) (command : String) : String :=
  let rasa : Option String := if env.rasaAvailable then env.rasaReply else none
  match rasa with
  | some r =>
    if r = "" then offline_response env.name env.offlineTime env.offlineDate command else r
  | none => offline_response env.name env.offlineTime env.offlineDate command

/-- Location parsing of the weather branch (src/main.py lines 539-544): the
text after the first `"in "` if present, else after the first `"at "`,
stripped; `none` when neither token occurs. -/
def extractLocation (cl : String) : Option String :=
  if strContainsB cl "in " then
    some (pyStrip (String.mk ((afterFirst "in ".data cl.data).getD [])))
  else if strContainsB cl "at " then
    some (pyStrip (String.mk ((afterFirst "at ".data cl.data).getD [])))
  else none

/-- `VoiceAssistant.process_command` (src/main.py lines 490-597). -/
def process_command (s : AsstState) (env : CmdEnv) (command : String) : CmdResult :=
  if command = "" then
    ⟨s, ["I didn\x27t catch that. Please try again."], .noInput, false⟩
  else
    let cl := toLowerStr command
    if containsAny cl ["goodbye", "exit", "quit", "bye"] then
      ⟨{ s with running := false }, ["Goodbye! Have a great day!"], .exitH, false⟩
    else if strContainsB cl "stop" then
      ⟨{ s with paused := true }, ["Paused. Say the wake word or press Enter to resume."],
       .pauseH, false⟩
    else if containsAny cl ["time", "current time", "what time", "tell me the time"] then
      ⟨s, ["The time is " ++ env.currentTime], .timeH, false⟩
    else if containsAny cl ["date", "today", "what day", "current date", "today\x27s date"] then
      ⟨s, ["Today is " ++ env.currentDate], .dateH, false⟩
    else if containsAny cl ["temperature", "weather", "how hot", "how cold"] then
      let r := RealtimeAgent.get_weather s.cache env.weather (extractLocation cl)
      ⟨{ s with cache := r.cache }, [r.reply], .weatherH, false⟩
    else if containsAny cl ["news", "headlines", "update me"] then
      let r := RealtimeAgent.get_news s.cache env.news "in" env.newsApiKey
      ⟨{ s with cache := r.cache }, [r.reply], .newsH, false⟩
    else if containsAny cl ["open", "launch", "start"] then
      ⟨s, [env.launcherReply], .launcherH, false⟩
    else if cloudGate s then
      match env.cloud with
      | .ok resp => ⟨s, [truncate3 resp], .cloudH, true⟩
      | .exn =>
        let s2 := { s with cloud_available := false, offline_fallback_active := true }
        ⟨s2,
         ["Cloud service unavailable. Falling back to offline mode.",
          offlineReplyOf env command],
         .cloudFallbackH, true⟩
    else
      ⟨s, [offlineReplyOf env command], .offlineH, false⟩

/-! ### Orchestrator: run-loop events (src/main.py lines 290-333, 660-730)

After `__init__` finishes, the only writes to `cloud_available` and
`offline_fallback_active` are the latch inside `process_command` and the
latch reset on wake-word detection (src/main.py line 322). -/

/-- An event of the running assistant process after initialization. -/
inductive AsstEvent where
  | wake
  | cmd (env : CmdEnv) (command : String)

/-- State effect of one event. -/
def stepState (s : AsstState) : AsstEvent → AsstState
  | .wake => { s with offline_fallback_active := false }
  | .cmd env c => (process_command s env c).state

/-- State after a sequence of events. -/
def runEvents (s : AsstState) (evs : List AsstEvent) : AsstState :=
  evs.foldl stepState s

/-- `true` iff some command event in the run invokes `get_cloud_response`. -/
def cloudCalledInRun (s : AsstState) : List AsstEvent → Bool
  | [] => false
  | e :: rest =>
    (match e with
     | .wake => false
     | .cmd env c => (process_command s env c).cloudCalled) ||
    cloudCalledInRun (stepState s e) rest

/-! ### Derived predicates and concrete sample data -/

/-- A weather fetch attempt that does not succeed (non-200 status or exception). -/
def attemptFails : FetchAttempt → Bool
  | .ok status _ => !(status == 200)
  | .exn => true

/-- Shape of every string `get_weather` can speak: a `"Current weather:"`
report or one of the agent's two fixed failure messages. -/
def weatherReplyShape (v : String) : Prop :=
  isPrefixB "Current weather:".data v.data = true ∨ v = weatherFailMsg ∨ v = weatherNetMsg

/-- Shape of every string stored under a `"weather:"` cache key: only
`_fetch` results are ever written there. -/
def weatherValShape (v : String) : Prop :=
  isPrefixB "Current weather:".data v.data = true ∨ v = weatherFailMsg

/-- Invariant of the agent cache: weather keys hold only `_fetch` results. -/
def WeatherCacheInv (c : TTLCache) : Prop :=
  ∀ k v, isPrefixB "weather:".data k.data = true → c.store k = some v → weatherValShape v

/-- Sample weather environment: internet up, both attempts raise. -/
def demoWeatherEnv : WeatherEnv := ⟨true, 1, .exn, .exn⟩

/-- Sample news environment: internet up, both attempts raise. -/
def demoNewsEnv : NewsEnv := ⟨true, 1, .exn, .exn⟩

/-- Sample command environment with a raising cloud call. -/
def demoCmdEnv : CmdEnv :=
  ⟨demoWeatherEnv, demoNewsEnv, none, .exn, "9:00 AM", "Monday, January 5, 2026",
   "Opening notepad", false, none, "DALI", "09:00 AM", "Monday, January 5, 2026"⟩

/-- Sample orchestrator state in auto mode with cloud available. -/
def demoState : AsstState := ⟨"auto", true, false, false, true, RealtimeAgent.initCache⟩

/-! ## Theorems -/

/-! ### Shared helper lemmas -/

theorem isPrefixB_append (a b : List Char) : isPrefixB a (a ++ b) = true := by
  induction a with
  | nil => rfl
  | cons c cs ih => simp [isPrefixB, ih]

theorem isPrefixB_append_assoc (a d b : List Char) :
    isPrefixB a ((a ++ d) ++ b) = true := by
  rw [List.append_assoc]
  exact isPrefixB_append a (d ++ b)

theorem string_append_ne_empty (s t : String) (hs : s.data ≠ []) : (s ++ t) ≠ "" := by
  intro h
  have hd := congrArg String.data h
  rw [String.data_append] at hd
  have hnil : s.data ++ t.data = [] := hd.trans rfl
  exact hs (List.append_eq_nil.mp hnil).1

theorem weatherTryLoop_reply_ne_empty (l : List FetchAttempt) :
    (weatherTryLoop l).reply ≠ "" := by
  induction l with
  | nil => simp [weatherTryLoop, weatherFailMsg]
  | cons a rest ih =>
    cases a with
    | exn => simpa [weatherTryLoop] using ih
    | ok st b =>
      by_cases hst : (st == 200) = true
      · simp only [weatherTryLoop, hst, if_true]
        exact string_append_ne_empty _ _ (by decide)
      · simpa [weatherTryLoop, hst] using ih

theorem TTLCache.get_eq_store {c : TTLCache} {now : ℚ} {k : String} {v : String}
    (h : c.get now k = some v) : c.store k = some v := by
  unfold TTLCache.get at h
  split at h
  · exact absurd h (by simp)
  · split at h
    · exact h
    · exact absurd h (by simp)

theorem TTLCache.get_set_same (c : TTLCache) (now now' : ℚ) (k : String) (v : String) :
    (c.set now k v).get now' k =
      if now ≠ 0 ∧ now' - now < c.ttl then some v else none := by
  simp [TTLCache.get, TTLCache.set]

/-! ### C8 — TTL cache semantics -/

/-- C8: for every key and value, `set` followed immediately by `get` on the
same key (at the same positive wall-clock time) returns exactly the written
value; `get` on a key that was never set, or whose last set lies at least
`ttl` seconds in the past, misses; the realtime agent's cache is built with
ttl 120 while the standalone cache utility defaults to 60. -/
theorem c8_ttl_cache_semantics (c : TTLCache) (key value : String) (now : ℚ)
    (hnow : 0 < now) (httl : 0 < c.ttl) :
    (c.set now key value).get now key = some value ∧
    (∀ k, c.timestamps k = none → c.get now k = none) ∧
    (∀ k ts, c.timestamps k = some ts → c.ttl ≤ now - ts → c.get now k = none) ∧
    RealtimeAgent.initCache.ttl = 120 ∧ TTLCache.init.ttl = 60 := by
  refine ⟨?_, ?_, ?_, rfl, rfl⟩
  · rw [TTLCache.get_set_same]
    exact if_pos ⟨ne_of_gt hnow, by simpa using httl⟩
  · intro k hk
    simp [TTLCache.get, hk]
  · intro k ts hk hexp
    simp only [TTLCache.get, hk]
    have : ¬(ts ≠ 0 ∧ now - ts < c.ttl) := by
      rintro ⟨-, hlt⟩
      exact absurd hexp (not_le_of_lt hlt)
    simp [this]

theorem c8_ttl_cache_semantics_witness :
    (RealtimeAgent.initCache.set 1 "weather:default" "Current weather: x").get 1
        "weather:default" = some "Current weather: x" := by
  have h := c8_ttl_cache_semantics RealtimeAgent.initCache "weather:default"
    "Current weather: x" 1 (by norm_num)
    (by norm_num [RealtimeAgent.initCache, TTLCache.init])
  exact h.1

/-! ### C7 — conversation store round trip -/

theorem find?_eq_none_of_all {l : List ConvRow} {i : Nat}
    (h : ∀ r ∈ l, r.id ≠ i) : l.find? (fun r => r.id == i) = none :=
  List.find?_eq_none.mpr (fun x hx => by simpa using h x hx)

theorem find?_append_of_none {l l2 : List ConvRow} {p : ConvRow → Bool}
    (h : l.find? p = none) : (l ++ l2).find? p = l2.find? p := by
  induction l with
  | nil => rfl
  | cons r rs ih =>
    cases hpr : p r with
    | true =>
      rw [List.find?_cons_of_pos _ hpr] at h
      exact absurd h (by simp)
    | false =>
      rw [List.find?_cons_of_neg _ (by simp [hpr])] at h
      rw [List.cons_append, List.find?_cons_of_neg _ (by simp [hpr])]
      exact ih h

/-- C7: inserting a conversation returns a positive id; fetching that id
returns a record carrying the same user text, response text and mode; after
deleting that id, fetching it returns an absent result. -/
theorem c7_db_roundtrip (db : ConvDB) (hwf : db.wf) (now u resp mode : String)
    (lang : Option String) (meta : String) :
    0 < (db.insert_conversation now u resp mode lang meta).1 ∧
    (db.insert_conversation now u resp mode lang meta).2.get_conversation
        (db.insert_conversation now u resp mode lang meta).1 =
      some ⟨db.nextId, now, mode, lang, u, resp, meta⟩ ∧
    ((db.insert_conversation now u resp mode lang meta).2.delete_conversation
        (db.insert_conversation now u resp mode lang meta).1).get_conversation
        (db.insert_conversation now u resp mode lang meta).1 = none := by
  obtain ⟨h1, hids⟩ := hwf
  have hfresh : ∀ r ∈ db.rows, r.id ≠ db.nextId := by
    intro r hr
    exact Nat.ne_of_lt (hids r hr)
  refine ⟨by simpa [ConvDB.insert_conversation] using h1, ?_, ?_⟩
  · simp only [ConvDB.insert_conversation, ConvDB.get_conversation]
    rw [find?_append_of_none (find?_eq_none_of_all hfresh)]
    simp
  · simp only [ConvDB.insert_conversation, ConvDB.delete_conversation,
      ConvDB.get_conversation]
    have hall : ∀ r ∈ (db.rows ++
        [(⟨db.nextId, now, mode, lang, u, resp, meta⟩ : ConvRow)]).filter
          (fun r => !(r.id == db.nextId)), r.id ≠ db.nextId := by
      intro r hr
      have := (List.mem_filter.mp hr).2
      simpa using this
    exact find?_eq_none_of_all hall

theorem c7_db_roundtrip_witness :
    (ConvDB.empty.insert_conversation "2026-01-05 10:00:00" "hi" "hello" "offline"
        (some "en-in") "\x7b\x7d").2.get_conversation
      (ConvDB.empty.insert_conversation "2026-01-05 10:00:00" "hi" "hello" "offline"
        (some "en-in") "\x7b\x7d").1 =
    some ⟨1, "2026-01-05 10:00:00", "offline", some "en-in", "hi", "hello", "\x7b\x7d"⟩ := by
  have h := c7_db_roundtrip ConvDB.empty
    ⟨by simp [ConvDB.empty], by simp [ConvDB.empty]⟩
    "2026-01-05 10:00:00" "hi" "hello" "offline" (some "en-in") "\x7b\x7d"
  exact h.2.1

/-! ### C6 — cloud availability probing -/

/-- C6: `is_cloud_available` returns false without issuing the network request
whenever the coalesced credential is absent, empty, or an unresolved
`$\x7b...\x7d` placeholder; with a usable credential it issues the probe and
returns true exactly when the probe yields HTTP 200 with a non-empty choices
list, false on any other status or on any of the caught exceptions. -/
theorem c6_is_cloud_available_spec (key : Option String) (probe : ProbeOutcome) :
    (key = none ∨ key = some "" ∨
        (∃ k, key = some k ∧ startsWithB k "$\x7b" = true) →
      is_cloud_available key probe = ⟨false, false⟩) ∧
    (∀ k, key = some k → k ≠ "" → startsWithB k "$\x7b" = false →
      (is_cloud_available key probe).requestMade = true ∧
      ((is_cloud_available key probe).result = true ↔
        ∃ choices, probe = .ok 200 choices ∧ choices ≠ [])) := by
  constructor
  · rintro (rfl | rfl | ⟨k, rfl, hk⟩)
    · rfl
    · rfl
    · by_cases hke : k = ""
      · simp [is_cloud_available, hke]
      · simp [is_cloud_available, hke, hk]
  · rintro k rfl hke hpl
    simp only [is_cloud_available, if_neg hke, hpl, Bool.false_eq_true, if_false]
    cases probe with
    | ok status choices =>
      refine ⟨rfl, ?_⟩
      constructor
      · intro hres
        simp only [Bool.and_eq_true, beq_iff_eq, Bool.not_eq_true'] at hres
        exact ⟨choices, by rw [hres.1], by simpa using hres.2⟩
      · rintro ⟨cs, hcs, hne⟩
        obtain ⟨rfl, rfl⟩ : status = 200 ∧ choices = cs := by
          cases hcs
          exact ⟨rfl, rfl⟩
        simp [hne]
    | timeout => exact ⟨rfl, by simp⟩
    | connError => exact ⟨rfl, by simp⟩
    | otherExn => exact ⟨rfl, by simp⟩

theorem c6_is_cloud_available_spec_witness :
    is_cloud_available (some "$\x7bSARVAM_API_KEY\x7d") (.ok 200 [.entry]) =
      ⟨false, false⟩ := by
  have h := c6_is_cloud_available_spec (some "$\x7bSARVAM_API_KEY\x7d")
    (.ok 200 [.entry])
  exact h.1 (Or.inr (Or.inr ⟨"$\x7bSARVAM_API_KEY\x7d", rfl, by decide⟩))

/-! ### C4 — cloud reply and error taxonomy -/

/-- C4: with a passing credential check, `get_cloud_response` returns the
stripped content of the first choice's message on success, and fails with a
distinct error per failure family: invalid key on HTTP 401, rate limit on
HTTP 429, a generic remote error on any other HTTP error, a timeout error on
request timeout, a cannot-connect error on connection failure, and a
malformed-response error when the body has no usable choice. -/
theorem c4_get_cloud_response_cases (apiKey : Option String)
    (h : ensure_api_key_ok apiKey = true) :
    (∀ data c rest s, data.choices = c :: rest →
        (c.message.getD ⟨none⟩).content = some (.str s) →
        get_cloud_response apiKey (.ok data) = .ok (pyStrip s)) ∧
    get_cloud_response apiKey (.httpError (some 401)) = .error .invalidKey ∧
    get_cloud_response apiKey (.httpError (some 429)) = .error .rateLimited ∧
    (∀ code, code ≠ some 401 → code ≠ some 429 →
        get_cloud_response apiKey (.httpError code) = .error .httpOther) ∧
    get_cloud_response apiKey .timeout = .error .timedOut ∧
    get_cloud_response apiKey .connError = .error .unreachable ∧
    (∀ data, data.choices = [] →
        get_cloud_response apiKey (.ok data) = .error .badFormat) := by
  refine ⟨?_, ?_, ?_, ?_, ?_, ?_, ?_⟩
  · intro data c rest s hch hcont
    simp [get_cloud_response, h, hch, hcont]
  · simp [get_cloud_response, h]
  · simp [get_cloud_response, h]
  · intro code h401 h429
    simp [get_cloud_response, h, h401, h429]
  · simp [get_cloud_response, h]
  · simp [get_cloud_response, h]
  · intro data hch
    simp [get_cloud_response, h, hch]

theorem c4_get_cloud_response_cases_witness :
    get_cloud_response (some "sk-demo")
        (.ok ⟨[⟨some ⟨some (.str "  Hello  ")⟩⟩]⟩) = .ok (pyStrip "  Hello  ") := by
  have h := c4_get_cloud_response_cases (some "sk-demo") (by decide)
  exact h.1 ⟨[⟨some ⟨some (.str "  Hello  ")⟩⟩]⟩ ⟨some ⟨some (.str "  Hello  ")⟩⟩ [] "  Hello  " rfl rfl

/-! ### C2 — speak routing and persistence (corrected)

The claim that a conversation insert is attempted in every branch fails on
the code: the remote-synthesis success branch returns at src/main.py line 266
before the insert at lines 278-287. -/

theorem c2_speak_counterexample :
    (⟨"online", true, false, true, false⟩ : SpeakState).dbInit = true ∧
    (speak ⟨"online", true, false, true, false⟩ ⟨true, true⟩ "Hello").onlineSucceeded
      = true ∧
    (speak ⟨"online", true, false, true, false⟩ ⟨true, true⟩ "Hello").dbInsertAttempted
      = false := by
  exact ⟨rfl, rfl, rfl⟩

/-- C2 (amended): for every non-empty reply, `speak` prints it and routes it
to remote synthesis exactly under the online gate, else to the local TTS
engine; the conversation insert is attempted only on the local-TTS path
(i.e. when remote synthesis is not used or fails), whenever a store is
initialized — the remote-synthesis success branch returns before the insert.
When attempted, the insert carries the online/offline mode tag and the pause
flag as metadata. -/
theorem c2_speak_routing (st : SpeakState) (env : SpeakEnv) (text : String)
    (htext : text ≠ "") :
    (speak st env text).printed = true ∧
    (speak st env text).onlineAttempted = speakGate st ∧
    (speak st env text).onlineSucceeded = (speakGate st && env.synthOk) ∧
    (speak st env text).localTtsRan =
      (!(speakGate st && env.synthOk) && env.ttsAvailable) ∧
    (speak st env text).dbInsertAttempted =
      (!(speakGate st && env.synthOk) && env.ttsAvailable && st.dbInit) ∧
    ((speak st env text).dbInsertAttempted = true →
      (speak st env text).insertMode =
        some (if st.cloud_available && !st.offline_fallback_active
              then "online" else "offline") ∧
      (speak st env text).insertPausedMeta = some st.paused) := by
  simp only [speak, if_neg htext]
  cases hg : speakGate st with
  | true =>
    cases hs : env.synthOk with
    | true => simp [speakOfflinePart]
    | false =>
      cases ht : env.ttsAvailable with
      | true => simp [speakOfflinePart, ht]
      | false => simp [speakOfflinePart, ht]
  | false =>
    cases ht : env.ttsAvailable with
    | true => simp [speakOfflinePart, ht]
    | false => simp [speakOfflinePart, ht]

theorem c2_speak_routing_witness :
    (speak ⟨"auto", false, false, true, false⟩ ⟨false, true⟩ "Hi").printed = true := by
  have h := c2_speak_routing ⟨"auto", false, false, true, false⟩ ⟨false, true⟩ "Hi"
    (by decide)
  exact h.1

/-! ### C5 — weather failure caching -/

/-- C5: with no internet connectivity, `get_weather` returns the fixed
internet-required message without reading or writing the cache; on a cache
miss it writes whatever `_fetch` finally produced — the fixed failure string
when both attempts fail, with a 0.5-second sleep following a raising
attempt — under the key `"weather:<location-or-default>"`, so that a failure
result is then served from the cache (without fetching) for the rest of the
ttl window. -/
theorem c5_weather_cache_policy (cache : TTLCache) (env : WeatherEnv)
    (loc : Option String) :
    (env.hasInternet = false →
      RealtimeAgent.get_weather cache env loc =
        ⟨weatherNetMsg, cache, false, false, 0, []⟩) ∧
    (env.hasInternet = true →
     truthyStr (cache.get env.now ("weather:" ++ locationOrDefault loc)) = false →
      (RealtimeAgent.get_weather cache env loc).reply =
        (weatherTryLoop [env.attempt1, env.attempt2]).reply ∧
      (RealtimeAgent.get_weather cache env loc).cache =
        cache.set env.now ("weather:" ++ locationOrDefault loc)
          (weatherTryLoop [env.attempt1, env.attempt2]).reply) ∧
    (attemptFails env.attempt1 = true → attemptFails env.attempt2 = true →
      (weatherTryLoop [env.attempt1, env.attempt2]).reply = weatherFailMsg) ∧
    (env.attempt1 = .exn →
      (weatherTryLoop [env.attempt1, env.attempt2]).sleeps.head? =
        some (1 / 2 : ℚ)) ∧
    (env.hasInternet = true →
     truthyStr (cache.get env.now ("weather:" ++ locationOrDefault loc)) = false →
     env.now ≠ 0 →
     ∀ env' : WeatherEnv, env'.hasInternet = true →
       env'.now - env.now < cache.ttl →
       (RealtimeAgent.get_weather (RealtimeAgent.get_weather cache env loc).cache
           env' loc).reply = (weatherTryLoop [env.attempt1, env.attempt2]).reply ∧
       (RealtimeAgent.get_weather (RealtimeAgent.get_weather cache env loc).cache
           env' loc).fetchRan = false) := by
  have hmissCase : env.hasInternet = true →
      truthyStr (cache.get env.now ("weather:" ++ locationOrDefault loc)) = false →
      RealtimeAgent.get_weather cache env loc =
        ⟨(weatherTryLoop [env.attempt1, env.attempt2]).reply,
         cache.set env.now ("weather:" ++ locationOrDefault loc)
           (weatherTryLoop [env.attempt1, env.attempt2]).reply,
         true, true, (weatherTryLoop [env.attempt1, env.attempt2]).consumed,
         (weatherTryLoop [env.attempt1, env.attempt2]).sleeps⟩ := by
    intro hnet hmiss
    simp only [RealtimeAgent.get_weather, hnet, Bool.not_true, Bool.false_eq_true,
      if_false]
    cases hc : cache.get env.now ("weather:" ++ locationOrDefault loc) with
    | none => rfl
    | some c =>
      rw [hc] at hmiss
      have hce : c = "" := by simpa [truthyStr] using hmiss
      simp [hce]
  have hloopne : ∀ l : List FetchAttempt, (weatherTryLoop l).reply ≠ "" :=
    weatherTryLoop_reply_ne_empty
  refine ⟨?_, ?_, ?_, ?_, ?_⟩
  · intro hnet
    simp [RealtimeAgent.get_weather, hnet]
  · intro hnet hmiss
    rw [hmissCase hnet hmiss]
    exact ⟨rfl, rfl⟩
  · intro h1 h2
    cases e1 : env.attempt1 with
    | exn =>
      cases e2 : env.attempt2 with
      | exn => simp [weatherTryLoop, weatherFailMsg]
      | ok st b =>
        rw [e2] at h2
        simp only [attemptFails, Bool.not_eq_true'] at h2
        simp [weatherTryLoop, h2]
    | ok st b =>
      rw [e1] at h1
      simp only [attemptFails, Bool.not_eq_true'] at h1
      cases e2 : env.attempt2 with
      | exn => simp [weatherTryLoop, h1]
      | ok st2 b2 =>
        rw [e2] at h2
        simp only [attemptFails, Bool.not_eq_true'] at h2
        simp [weatherTryLoop, h1, h2]
  · intro h1
    rw [h1]
    simp [weatherTryLoop]
  · intro hnet hmiss hts env' hnet' hwin
    rw [hmissCase hnet hmiss]
    simp only [RealtimeAgent.get_weather, hnet', Bool.not_true, Bool.false_eq_true,
      if_false]
    rw [TTLCache.get_set_same]
    rw [if_pos ⟨hts, hwin⟩]
    simp [hloopne [env.attempt1, env.attempt2]]

theorem c5_weather_cache_policy_witness :
    RealtimeAgent.get_weather RealtimeAgent.initCache ⟨false, 1, .exn, .exn⟩ none =
      ⟨weatherNetMsg, RealtimeAgent.initCache, false, false, 0, []⟩ ∧
    (weatherTryLoop [FetchAttempt.exn, FetchAttempt.exn]).reply = weatherFailMsg := by
  have h := c5_weather_cache_policy RealtimeAgent.initCache ⟨false, 1, .exn, .exn⟩ none
  exact ⟨h.1 rfl, h.2.2.1 rfl rfl⟩

/-! ### C10 — news cache consulted before API-key check -/

/-- C10: with internet available and a cache miss, a `get_news` call without
an API key caches the fixed not-configured message under `"news:<country>"`
(with no HTTP attempt); any call for the same country within the 120-second
ttl window then returns that cached message without running `_fetch`, even
when it supplies an API key. -/
theorem c10_news_cache_before_key (cache : TTLCache) (env1 env2 : NewsEnv)
    (country : String) (k2 : String)
    (httl : cache.ttl = 120)
    (h1 : env1.hasInternet = true) (h2 : env2.hasInternet = true)
    (hmiss : truthyStr (cache.get env1.now ("news:" ++ country)) = false)
    (hts : env1.now ≠ 0) (hwin : env2.now - env1.now < 120) :
    (RealtimeAgent.get_news cache env1 country none).reply = newsNotConfMsg ∧
    (RealtimeAgent.get_news cache env1 country none).httpAttempts = 0 ∧
    (RealtimeAgent.get_news (RealtimeAgent.get_news cache env1 country none).cache
        env2 country (some k2)).reply = newsNotConfMsg ∧
    (RealtimeAgent.get_news (RealtimeAgent.get_news cache env1 country none).cache
        env2 country (some k2)).fetchRan = false ∧
    (RealtimeAgent.get_news (RealtimeAgent.get_news cache env1 country none).cache
        env2 country (some k2)).httpAttempts = 0 := by
  have hr1 : RealtimeAgent.get_news cache env1 country none =
      ⟨newsNotConfMsg, cache.set env1.now ("news:" ++ country) newsNotConfMsg,
       true, true, 0, []⟩ := by
    simp only [RealtimeAgent.get_news, h1, Bool.not_true, Bool.false_eq_true,
      if_false, truthyStr, Bool.false_eq_true, if_false]
    cases hc : cache.get env1.now ("news:" ++ country) with
    | none => rfl
    | some c =>
      rw [hc] at hmiss
      have hce : c = "" := by simpa [truthyStr] using hmiss
      simp [hce]
  refine ⟨by rw [hr1], by rw [hr1], ?_⟩
  rw [hr1]
  simp only [RealtimeAgent.get_news, h2, Bool.not_true, Bool.false_eq_true, if_false]
  rw [TTLCache.get_set_same]
  rw [httl] at *
  rw [if_pos ⟨hts, hwin⟩]
  have hne : newsNotConfMsg ≠ "" := by simp [newsNotConfMsg]
  simp [hne]

theorem c10_news_cache_before_key_witness :
    (RealtimeAgent.get_news RealtimeAgent.initCache demoNewsEnv "in" none).reply =
      newsNotConfMsg ∧
    (RealtimeAgent.get_news
        (RealtimeAgent.get_news RealtimeAgent.initCache demoNewsEnv "in" none).cache
        ⟨true, 2, .exn, .exn⟩ "in" (some "valid-key")).reply = newsNotConfMsg := by
  have h := c10_news_cache_before_key RealtimeAgent.initCache demoNewsEnv
    ⟨true, 2, .exn, .exn⟩ "in" "valid-key" rfl rfl rfl
    (by simp [RealtimeAgent.initCache, TTLCache.init, TTLCache.get, truthyStr])
    (by norm_num [demoNewsEnv]) (by norm_num [demoNewsEnv])
  exact ⟨h.1, h.2.2.1⟩

/-! ### C9 — the cloud latch is permanent for the process -/

theorem process_command_cloud_off (s : AsstState) (env : CmdEnv) (c : String)
    (h : s.cloud_available = false) :
    (process_command s env c).state.cloud_available = false ∧
    (process_command s env c).cloudCalled = false := by
  have hg : cloudGate s = false := by simp [cloudGate, h]
  unfold process_command
  repeat' split <;> simp_all

theorem process_command_latch_cases (s : AsstState) (env : CmdEnv) (c : String)
    (hraise : env.cloud = CloudOutcome.exn) :
    (process_command s env c).cloudCalled = false ∨
    (process_command s env c).state.cloud_available = false := by
  unfold process_command
  repeat' split <;> simp_all

theorem stepState_cloud_off {s : AsstState} (h : s.cloud_available = false)
    (e : AsstEvent) : (stepState s e).cloud_available = false := by
  cases e with
  | wake => simpa [stepState] using h
  | cmd env c => exact (process_command_cloud_off s env c h).1

theorem runEvents_cloud_off (evs : List AsstEvent) :
    ∀ s : AsstState, s.cloud_available = false →
      (runEvents s evs).cloud_available = false ∧ cloudCalledInRun s evs = false := by
  induction evs with
  | nil => exact fun s h => ⟨h, rfl⟩
  | cons e rest ih =>
    intro s h
    have hstep := stepState_cloud_off h e
    refine ⟨(ih (stepState s e) hstep).1, ?_⟩
    cases e with
    | wake =>
      simpa [cloudCalledInRun] using (ih _ hstep).2
    | cmd env c =>
      simp [cloudCalledInRun, (process_command_cloud_off s env c h).2,
        (ih _ hstep).2]

/-- C9: once a cloud-processing attempt inside `process_command` raises, the
resulting state has `cloud_available = false`, and from that state no
sequence of later events (wake-word detections and commands, the only writers
of these flags after `__init__`) ever makes `cloud_available` true again or
invokes `get_cloud_response` — even though a wake event clears the per-session
offline-fallback latch. -/
theorem c9_cloud_latch_permanent (s : AsstState) (env : CmdEnv) (c : String)
    (evs : List AsstEvent)
    (hraise : env.cloud = CloudOutcome.exn)
    (hcalled : (process_command s env c).cloudCalled = true) :
    (process_command s env c).state.cloud_available = false ∧
    (runEvents (process_command s env c).state evs).cloud_available = false ∧
    cloudCalledInRun (process_command s env c).state evs = false ∧
    (stepState (process_command s env c).state AsstEvent.wake).offline_fallback_active
      = false := by
  have hoff : (process_command s env c).state.cloud_available = false := by
    rcases process_command_latch_cases s env c hraise with hf | hs
    · rw [hcalled] at hf
      exact absurd hf (by simp)
    · exact hs
  have hrun := runEvents_cloud_off evs _ hoff
  exact ⟨hoff, hrun.1, hrun.2, rfl⟩

theorem c9_cloud_latch_permanent_witness :
    (process_command demoState demoCmdEnv "who are you").state.cloud_available
      = false ∧
    cloudCalledInRun (process_command demoState demoCmdEnv "who are you").state
      [AsstEvent.wake, AsstEvent.cmd demoCmdEnv "who are you"] = false := by
  have h := c9_cloud_latch_permanent demoState demoCmdEnv "who are you"
    [AsstEvent.wake, AsstEvent.cmd demoCmdEnv "who are you"] rfl (by decide)
  exact ⟨h.1, h.2.2.1⟩

/-! ### C1 — weather keyword dispatch -/

theorem weatherTryLoop_shape (l : List FetchAttempt) :
    isPrefixB "Current weather:".data (weatherTryLoop l).reply.data = true ∨
    (weatherTryLoop l).reply = weatherFailMsg := by
  induction l with
  | nil => exact Or.inr rfl
  | cons a rest ih =>
    cases a with
    | exn => simpa [weatherTryLoop] using ih
    | ok st b =>
      by_cases hst : (st == 200) = true
      · left
        simp only [weatherTryLoop, hst, if_true]
        rw [String.data_append]
        have hsp : "Current weather: ".data = "Current weather:".data ++ [' '] := by
          decide
        rw [hsp]
        exact isPrefixB_append_assoc _ _ _
      · simpa [weatherTryLoop, hst] using ih

theorem get_weather_reply_shape (cache : TTLCache) (env : WeatherEnv)
    (loc : Option String) (hinv : WeatherCacheInv cache) :
    weatherReplyShape (RealtimeAgent.get_weather cache env loc).reply := by
  have hloop : weatherReplyShape (weatherTryLoop [env.attempt1, env.attempt2]).reply := by
    rcases weatherTryLoop_shape [env.attempt1, env.attempt2] with hp | hf
    · exact Or.inl hp
    · exact Or.inr (Or.inl hf)
  cases hnet : env.hasInternet with
  | false =>
    simp only [RealtimeAgent.get_weather, hnet]
    exact Or.inr (Or.inr rfl)
  | true =>
    simp only [RealtimeAgent.get_weather, hnet, Bool.not_true, Bool.false_eq_true,
      if_false]
    cases hc : cache.get env.now ("weather:" ++ locationOrDefault loc) with
    | none => simpa using hloop
    | some c =>
      by_cases hce : c = ""
      · simpa [hce] using hloop
      · simp only [hce, if_false]
        have hstore := TTLCache.get_eq_store hc
        have hpre : isPrefixB "weather:".data
            ("weather:" ++ locationOrDefault loc).data = true := by
          rw [String.data_append]
          exact isPrefixB_append _ _
        rcases hinv _ _ hpre hstore with hp | hf
        · exact Or.inl hp
        · exact Or.inr (Or.inl hf)

/-- C1: a command containing a weather/temperature keyword and none of the
earlier-priority exit/pause/time/date keywords is dispatched to the realtime
agent's weather operation — with the optional location taken as the stripped
text after the first `"in "` (or, failing that, `"at "`) — and its result is
the single spoken reply, with no cloud call and no offline handling,
regardless of the configured mode; under the agent-cache invariant the reply
begins with `"Current weather:"` or is one of the agent's two fixed failure
messages. -/
theorem c1_weather_dispatch (s : AsstState) (env : CmdEnv) (command : String)
    (hw : containsAny (toLowerStr command)
      ["temperature", "weather", "how hot", "how cold"] = true)
    (hex : containsAny (toLowerStr command) ["goodbye", "exit", "quit", "bye"] = false)
    (hstop : strContainsB (toLowerStr command) "stop" = false)
    (ht : containsAny (toLowerStr command)
      ["time", "current time", "what time", "tell me the time"] = false)
    (hd : containsAny (toLowerStr command)
      ["date", "today", "what day", "current date", "today\x27s date"] = false)
    (hinv : WeatherCacheInv s.cache) :
    (process_command s env command).handler = Handler.weatherH ∧
    (process_command s env command).cloudCalled = false ∧
    (process_command s env command).spoken =
      [(RealtimeAgent.get_weather s.cache env.weather
          (extractLocation (toLowerStr command))).reply] ∧
    weatherReplyShape (RealtimeAgent.get_weather s.cache env.weather
      (extractLocation (toLowerStr command))).reply ∧
    (process_command s env command).state.mode = s.mode ∧
    (process_command s env command).state.cloud_available = s.cloud_available ∧
    (process_command s env command).state.offline_fallback_active =
      s.offline_fallback_active := by
  have hc : command ≠ "" := by
    intro h
    rw [h] at hw
    exact absurd hw (by decide)
  have hres : process_command s env command =
      ⟨{ s with cache := (RealtimeAgent.get_weather s.cache env.weather
          (extractLocation (toLowerStr command))).cache },
       [(RealtimeAgent.get_weather s.cache env.weather
          (extractLocation (toLowerStr command))).reply],
       .weatherH, false⟩ := by
    simp [process_command, hc, hw, hex, hstop, ht, hd]
  rw [hres]
  exact ⟨rfl, rfl, rfl, get_weather_reply_shape s.cache env.weather _ hinv,
    rfl, rfl, rfl⟩

theorem c1_weather_dispatch_witness :
    (process_command demoState demoCmdEnv "what is the weather in mumbai").handler
      = Handler.weatherH ∧
    (process_command demoState demoCmdEnv "what is the weather in mumbai").spoken =
      [(RealtimeAgent.get_weather demoState.cache demoCmdEnv.weather
          (extractLocation (toLowerStr "what is the weather in mumbai"))).reply] := by
  have h := c1_weather_dispatch demoState demoCmdEnv "what is the weather in mumbai"
    (by decide) (by decide) (by decide) (by decide) (by decide)
    (by
      intro k v _ hkv
      simp [demoState, RealtimeAgent.initCache, TTLCache.init] at hkv)
  exact ⟨h.1, h.2.2.1⟩

/-! ### C3 — configuration placeholder substitution -/

theorem scanName_append (name rest : List Char) (h : ∀ c ∈ name, c ≠ '\x7d') :
    ∃ hlen, scanName (name ++ '\x7d' :: rest) = some (name, ⟨rest, hlen⟩) := by
  induction name with
  | nil =>
    refine ⟨by simp, ?_⟩
    simp [scanName]
  | cons c cs ih =>
    have hc : c ≠ '\x7d' := h c (by simp)
    obtain ⟨hlen, hscan⟩ := ih (fun x hx => h x (by simp [hx]))
    refine ⟨by simp; omega, ?_⟩
    simp only [List.cons_append, scanName, if_neg hc, List.append_eq, hscan]

theorem substRe_at_placeholder (envv : String → Option String) (name rest : List Char)
    (hne : name ≠ []) (hnb : ∀ c ∈ name, c ≠ '\x7d') :
    substRe envv ('$' :: '\x7b' :: (name ++ '\x7d' :: rest)) =
      match envv (String.mk name) with
      | some v => v.data ++ substRe envv rest
      | none => '$' :: '\x7b' :: (name ++ '\x7d' :: substRe envv rest) := by
  obtain ⟨hlen, hscan⟩ := scanName_append name rest hnb
  cases hx : name ++ '\x7d' :: rest with
  | nil => exact absurd hx (by simp)
  | cons y ys =>
    rw [← hx]
    rw [substRe]
    rw [if_pos ⟨rfl, rfl⟩]
    rw [hscan]
    simp only []
    rw [if_neg hne]

theorem substRe_skip_clean_text (envv : String → Option String) (pre rest2 : List Char)
    (hpre : hasDollarBrace pre = false) :
    substRe envv (pre ++ '$' :: '\x7b' :: rest2) =
      pre ++ substRe envv ('$' :: '\x7b' :: rest2) := by
  induction pre with
  | nil => rfl
  | cons c pre' ih =>
    cases pre' with
    | nil =>
      show substRe envv (c :: '$' :: '\x7b' :: rest2) =
        c :: substRe envv ('$' :: '\x7b' :: rest2)
      rw [substRe]
      rw [if_neg (by rintro ⟨-, h⟩; exact absurd h (by decide))]
    | cons d pre'' =>
      have h1 : ¬(c = '$' ∧ d = '\x7b') := by
        intro ⟨hcd, hdd⟩
        rw [hcd, hdd] at hpre
        simp [hasDollarBrace] at hpre
      have h2 : hasDollarBrace (d :: pre'') = false := by
        cases hv : (c == '$' && d == '\x7b') with
        | true =>
          rw [Bool.and_eq_true] at hv
          exact absurd ⟨by simpa using hv.1, by simpa using hv.2⟩ h1
        | false =>
          have := hpre
          rw [hasDollarBrace, hv] at this
          simpa using this
      show substRe envv (c :: d :: (pre'' ++ '$' :: '\x7b' :: rest2)) =
        c :: d :: pre'' ++ substRe envv ('$' :: '\x7b' :: rest2)
      rw [substRe]
      rw [if_neg h1]
      rw [show d :: (pre'' ++ '$' :: '\x7b' :: rest2) =
        (d :: pre'') ++ '$' :: '\x7b' :: rest2 from rfl]
      rw [ih h2]
      rfl

theorem processConfigList_map (envv : String → Option String) (xs : List ConfigVal) :
    processConfigList envv xs = xs.map (process_config envv) := by
  induction xs with
  | nil => rfl
  | cons x xs ih => simp [processConfigList, ih]

theorem processConfigFields_map (envv : String → Option String)
    (fs : List (String × ConfigVal)) :
    processConfigFields envv fs = fs.map (fun p => (p.1, process_config envv p.2)) := by
  induction fs with
  | nil => rfl
  | cons p fs ih =>
    cases p with
    | mk k v => simp [processConfigFields, ih]

/-- C3: `process_config` recurses through every nested mapping and sequence,
leaves non-string values unchanged, and rewrites every string leaf with the
placeholder substitution; at the substitution level, an occurrence of
`$\x7bNAME\x7d` (non-empty `NAME` without a closing brace, preceded by text
with no earlier placeholder start) is replaced by the environment value of
`NAME` when set, and is left verbatim — braces included — when unset. -/
theorem c3_config_substitution (envv : String → Option String) :
    (∀ n, process_config envv (.num n) = .num n) ∧
    (∀ b, process_config envv (.boolean b) = .boolean b) ∧
    process_config envv .null = .null ∧
    (∀ xs, process_config envv (.arr xs) = .arr (xs.map (process_config envv))) ∧
    (∀ fs, process_config envv (.obj fs) =
      .obj (fs.map (fun p => (p.1, process_config envv p.2)))) ∧
    (∀ s, process_config envv (.str s) = .str (String.mk (substRe envv s.data))) ∧
    (∀ pre name rest v, hasDollarBrace pre = false → name ≠ [] →
      (∀ ch ∈ name, ch ≠ '\x7d') → envv (String.mk name) = some v →
      substRe envv (pre ++ '$' :: '\x7b' :: (name ++ '\x7d' :: rest)) =
        pre ++ (v.data ++ substRe envv rest)) ∧
    (∀ pre name rest, hasDollarBrace pre = false → name ≠ [] →
      (∀ ch ∈ name, ch ≠ '\x7d') → envv (String.mk name) = none →
      substRe envv (pre ++ '$' :: '\x7b' :: (name ++ '\x7d' :: rest)) =
        pre ++ ('$' :: '\x7b' :: (name ++ '\x7d' :: substRe envv rest))) := by
  refine ⟨fun n => rfl, fun b => rfl, rfl, ?_, ?_, fun s => rfl, ?_, ?_⟩
  · intro xs
    rw [process_config, processConfigList_map]
  · intro fs
    rw [process_config, processConfigFields_map]
  · intro pre name rest v hpre hne hnb henv
    rw [substRe_skip_clean_text envv pre _ hpre]
    rw [substRe_at_placeholder envv name rest hne hnb]
    rw [henv]
  · intro pre name rest hpre hne hnb henv
    rw [substRe_skip_clean_text envv pre _ hpre]
    rw [substRe_at_placeholder envv name rest hne hnb]
    rw [henv]

theorem c3_config_substitution_witness :
    substRe (fun n => if n = "PICOVOICE_ACCESS_KEY" then some "TESTKEY" else none)
        ([] ++ '$' :: '\x7b' :: ("PICOVOICE_ACCESS_KEY".data ++ '\x7d' :: [])) =
      [] ++ ("TESTKEY".data ++
        substRe (fun n => if n = "PICOVOICE_ACCESS_KEY" then some "TESTKEY" else none)
          []) := by
  have h := c3_config_substitution
    (fun n => if n = "PICOVOICE_ACCESS_KEY" then some "TESTKEY" else none)
  exact h.2.2.2.2.2.2.1 [] "PICOVOICE_ACCESS_KEY".data [] "TESTKEY" rfl (by decide)
    (by decide) (by decide)

end DALI
